import Mathlib

/-!
Shallow embedding of the shipment-management program in
`src/Proyecto_Python_MorenoKevinMendezAnthuan/main.py`.

Modelling decisions:
* Python `dict` (insertion ordered, unique keys, assignment replaces in
  place) is an association list with `alookup` / `dinsert`.
* Wall-clock datetimes are whole seconds (`Nat`).  The program stores every
  timestamp through `strftime` at one-second resolution ("%Y-%m-%d %H:%M:%S",
  "%Y-%m-%d", "%H:%M:%S") and re-parses with the same formats, so second
  granularity is exact for everything the program observes.  A datetime `t`
  has date component `t / segPorDia` and time-of-day `t % segPorDia`.
* `uuid.uuid4()` and `datetime.datetime.now()` are nondeterministic inputs;
  the embedded operations take them as explicit arguments (`guia`, `now`).
* Exceptions become `Except PyErr`; the system object `self` is threaded as
  an explicit `Sistema` value, returned unchanged on the failure paths
  (mirroring that a raise before the mutating statements leaves `self`
  untouched).
* `guardar_datos` / `cargar_datos` file I/O is out of the model; the record
  (de)serialization they use (`to_dict` / `from_dict`) is embedded.
* Durations: `(fecha_entregado - fecha_recibido).total_seconds() / 3600` and
  the averaging division are exact rational arithmetic (`Rat`).
-/

/-- Python exception outcomes raised by the embedded operations. -/
inductive PyErr where
  | duplicateIdentifier
  | invalidIdentifierType
  | notFound
  | invalidStatus
  | keyError
  | indexError
deriving DecidableEq

/-- Lookup in a Python dict modelled as an association list. -/
def alookup {α : Type} : List (String × α) → String → Option α
  | [], _ => none
  | (k, v) :: rest, key => if k = key then some v else alookup rest key

/-- Python dict assignment `m[key] = val`: replace in place when the key is
present, otherwise append at the end (insertion order). -/
def dinsert {α : Type} : List (String × α) → String → α → List (String × α)
  | [], key, val => [(key, val)]
  | (k, v) :: rest, key, val =>
      if k = key then (k, val) :: rest else (k, v) :: dinsert rest key val

/-- `TIPOS_ID` from main.py line 8. -/
def TIPOS_ID : List String := ["CC", "TI", "CE"]

/-- `ESTADOS_ENVIO` from main.py lines 9-16. -/
def ESTADOS_ENVIO : List String :=
  ["Recibido",
   "En Tránsito",
   "En Ciudad Destino",
   "En Bodega De La Transportadora",
   "En Reparto",
   "Entregado"]

/-- Seconds per day: a datetime `t : Nat` has date `t / segPorDia` and
time-of-day `t % segPorDia`. -/
def segPorDia : Nat := 86400

/-- `Cliente` (main.py lines 19-35). -/
structure Cliente where
  nombres : String
  apellidos : String
  id_numero : String
  tipo_id : String
  direccion : String
  telefono_fijo : String
  celular : String
  barrio : String
deriving DecidableEq

/-- `Cliente.__init__` (lines 20-35): validates `tipo_id ∈ TIPOS_ID`,
raising `ValueError` (here `invalidIdentifierType`) otherwise. -/
def mkCliente (nombres apellidos id_numero tipo_id direccion telefono_fijo
    celular barrio : String) : Except PyErr Cliente :=
  if tipo_id ∉ TIPOS_ID then .error .invalidIdentifierType
  else .ok ⟨nombres, apellidos, id_numero, tipo_id, direccion, telefono_fijo,
            celular, barrio⟩

/-- The persisted customer record shape (main.py lines 37-48). -/
structure ClienteDict where
  nombres : String
  apellidos : String
  id_numero : String
  tipo_id : String
  direccion : String
  telefono_fijo : String
  celular : String
  barrio : String
deriving DecidableEq

/-- `Cliente.to_dict` (lines 37-48). -/
def Cliente.to_dict (c : Cliente) : ClienteDict :=
  ⟨c.nombres, c.apellidos, c.id_numero, c.tipo_id, c.direccion,
   c.telefono_fijo, c.celular, c.barrio⟩

/-- `Cliente.from_dict` (lines 50-62): calls the validating constructor. -/
def Cliente.from_dict (d : ClienteDict) : Except PyErr Cliente :=
  mkCliente d.nombres d.apellidos d.id_numero d.tipo_id d.direccion
    d.telefono_fijo d.celular d.barrio

/-- Python truthiness of an optional string argument (`if direccion:`):
`None` and the empty string are falsy. -/
def truthy : Option String → Bool
  | none => false
  | some v => v ≠ ""

/-- One `if arg: field = arg` update of `Cliente.actualizar_informacion`. -/
def setString (cur : String) (arg : Option String) : String :=
  match arg with
  | none => cur
  | some v => if v = "" then cur else v

/-- `Cliente.actualizar_informacion` (lines 64-74): each of the four mutable
fields is overwritten only when the argument is supplied and truthy. -/
def Cliente.actualizar_informacion (c : Cliente)
    (direccion telefono_fijo celular barrio : Option String) : Cliente :=
  { c with
    direccion := setString c.direccion direccion
    telefono_fijo := setString c.telefono_fijo telefono_fijo
    celular := setString c.celular celular
    barrio := setString c.barrio barrio }

/-- `Destinatario` (lines 77-84). -/
structure Destinatario where
  nombre : String
  direccion : String
  telefono : String
  ciudad : String
  barrio : String
deriving DecidableEq

/-- The persisted recipient record shape (lines 86-94). -/
structure DestinatarioDict where
  nombre : String
  direccion : String
  telefono : String
  ciudad : String
  barrio : String
deriving DecidableEq

/-- `Destinatario.to_dict` (lines 86-94). -/
def Destinatario.to_dict (d : Destinatario) : DestinatarioDict :=
  ⟨d.nombre, d.direccion, d.telefono, d.ciudad, d.barrio⟩

/-- `Destinatario.from_dict` (lines 96-105): no validation. -/
def Destinatario.from_dict (d : DestinatarioDict) : Destinatario :=
  ⟨d.nombre, d.direccion, d.telefono, d.ciudad, d.barrio⟩

/-- One entry of `historial_estados` (lines 120-124): the `fecha` string
"%Y-%m-%d %H:%M:%S" is modelled as the timestamp it denotes, in seconds. -/
structure HistEntry where
  estado : String
  fecha : Nat
  descripcion : String
deriving DecidableEq

/-- `Envio` (lines 108-124).  `fecha_envio` is the full send datetime;
`hora_envio` is its time-of-day component, stored separately by
`__init__` (`self.hora_envio = fecha_envio.time()`). -/
structure Envio where
  fecha_envio : Nat
  hora_envio : Nat
  destinatario : Destinatario
  id_remitente : String
  numero_guia : String
  estado : String
  historial_estados : List HistEntry
deriving DecidableEq

/-- `Envio.__init__` (lines 109-124).  `guia` stands for the fresh
`str(uuid.uuid4())`, `now` for `datetime.datetime.now()`. -/
def Envio.init (fecha_envio : Nat) (destinatario : Destinatario)
    (id_remitente : String) (guia : String) (now : Nat) : Envio :=
  { fecha_envio := fecha_envio
    hora_envio := fecha_envio % segPorDia
    destinatario := destinatario
    id_remitente := id_remitente
    numero_guia := guia
    estado := ESTADOS_ENVIO[0]!
    historial_estados :=
      [⟨ ESTADOS_ENVIO[0]!, now, "Paquete recibido en la oficina"⟩] }

/-- `Envio.actualizar_estado` (lines 126-136): validates the new status
against `ESTADOS_ENVIO`, then sets it and appends one history entry. -/
def Envio.actualizar_estado (e : Envio) (nuevo_estado : String) (now : Nat)
    (descripcion : String) : Except PyErr Envio :=
  if nuevo_estado ∉ ESTADOS_ENVIO then .error .invalidStatus
  else .ok { e with
    estado := nuevo_estado
    historial_estados :=
      e.historial_estados ++ [⟨nuevo_estado, now, descripcion⟩] }

/-- The persisted shipment record shape (lines 138-148): `fecha_envio` keeps
only the date component ("%Y-%m-%d"), `hora_envio` the time of day
("%H:%M:%S"). -/
structure EnvioDict where
  fecha_envio : Nat
  hora_envio : Nat
  destinatario : DestinatarioDict
  id_remitente : String
  numero_guia : String
  estado : String
  historial_estados : List HistEntry
deriving DecidableEq

/-- `Envio.to_dict` (lines 138-148). -/
def Envio.to_dict (e : Envio) : EnvioDict :=
  { fecha_envio := e.fecha_envio / segPorDia
    hora_envio := e.hora_envio
    destinatario := e.destinatario.to_dict
    id_remitente := e.id_remitente
    numero_guia := e.numero_guia
    estado := e.estado
    historial_estados := e.historial_estados }

/-- `Envio.from_dict` (lines 150-165): re-parses the send datetime from the
date and time-of-day components, builds a fresh object through `__init__`
(with a temporary guia/now), then overwrites `numero_guia`, `estado` and
`historial_estados` from the record, unchecked. -/
def Envio.from_dict (d : EnvioDict) (guia : String) (now : Nat) : Envio :=
  let fecha := d.fecha_envio * segPorDia + d.hora_envio
  let e0 := Envio.init fecha (Destinatario.from_dict d.destinatario)
      d.id_remitente guia now
  { e0 with
    numero_guia := d.numero_guia
    estado := d.estado
    historial_estados := d.historial_estados }

/-- `SistemaGestionEnvios` in-memory state (lines 168-177): the two dicts
`clientes` and `envios`. -/
structure Sistema where
  clientes : List (String × Cliente)
  envios : List (String × Envio)
deriving DecidableEq

/-- The state of a fresh session with no persisted data. -/
def Sistema.empty : Sistema := ⟨[], []⟩

/-- `SistemaGestionEnvios.registrar_cliente` (lines 213-233): duplicate
check first, then the validating constructor, then insert. -/
def registrar_cliente (s : Sistema) (nombres apellidos id_numero tipo_id
    direccion telefono_fijo celular barrio : String) :
    Sistema × Except PyErr Cliente :=
  if (alookup s.clientes id_numero).isSome then
    (s, .error .duplicateIdentifier)
  else
    match mkCliente nombres apellidos id_numero tipo_id direccion
        telefono_fijo celular barrio with
    | .error err => (s, .error err)
    | .ok cliente =>
        ({ s with clientes := dinsert s.clientes id_numero cliente },
         .ok cliente)

/-- `SistemaGestionEnvios.actualizar_cliente` (lines 235-243). -/
def actualizar_cliente (s : Sistema) (id_numero : String)
    (direccion telefono_fijo celular barrio : Option String) :
    Sistema × Except PyErr Cliente :=
  match alookup s.clientes id_numero with
  | none => (s, .error .notFound)
  | some cliente =>
      let c2 := cliente.actualizar_informacion direccion telefono_fijo
          celular barrio
      ({ s with clientes := dinsert s.clientes id_numero c2 }, .ok c2)

/-- `SistemaGestionEnvios.buscar_cliente` (lines 245-247). -/
def buscar_cliente (s : Sistema) (id_numero : String) : Option Cliente :=
  alookup s.clientes id_numero

/-- `SistemaGestionEnvios.registrar_envio` (lines 249-277): sender must be
registered; the new shipment is stored under its own `numero_guia`. -/
def registrar_envio (s : Sistema) (fecha_envio : Nat)
    (destinatario_nombre destinatario_direccion destinatario_telefono
     destinatario_ciudad destinatario_barrio id_remitente : String)
    (guia : String) (now : Nat) : Sistema × Except PyErr Envio :=
  if (alookup s.clientes id_remitente).isNone then (s, .error .notFound)
  else
    let destinatario : Destinatario :=
      ⟨destinatario_nombre, destinatario_direccion, destinatario_telefono,
       destinatario_ciudad, destinatario_barrio⟩
    let envio := Envio.init fecha_envio destinatario id_remitente guia now
    ({ s with envios := dinsert s.envios envio.numero_guia envio }, .ok envio)

/-- `SistemaGestionEnvios.buscar_envio` (lines 279-281). -/
def buscar_envio (s : Sistema) (numero_guia : String) : Option Envio :=
  alookup s.envios numero_guia

/-- `SistemaGestionEnvios.buscar_envios_por_remitente` (lines 283-285). -/
def buscar_envios_por_remitente (s : Sistema) (id_remitente : String) :
    List Envio :=
  (s.envios.map Prod.snd).filter
    (fun envio => envio.id_remitente == id_remitente)

/-- `SistemaGestionEnvios.buscar_multiple_envios` (lines 287-289): the dict
comprehension builds the result dict by successive insertion. -/
def buscar_multiple_envios (s : Sistema) (numeros_guia : List String) :
    List (String × Option Envio) :=
  numeros_guia.foldl
    (fun m numero_guia => dinsert m numero_guia (buscar_envio s numero_guia))
    []

/-- `SistemaGestionEnvios.actualizar_estado_envio` (lines 291-299): the
updated shipment object replaces the stored one (in Python they are the
same mutated object, still bound to the same key). -/
def actualizar_estado_envio (s : Sistema) (numero_guia nuevo_estado : String)
    (now : Nat) (descripcion : String) : Sistema × Except PyErr Envio :=
  match buscar_envio s numero_guia with
  | none => (s, .error .notFound)
  | some envio =>
      match envio.actualizar_estado nuevo_estado now descripcion with
      | .error err => (s, .error err)
      | .ok e2 =>
          ({ s with envios := dinsert s.envios numero_guia e2 }, .ok e2)

/-- Date component of a datetime, as compared by the report's range filter
(`strptime(strftime("%Y-%m-%d")).date()`). -/
def dateOf (t : Nat) : Nat := t / segPorDia

/-- The report record (lines 343-349). -/
structure Informe where
  total_envios : Nat
  conteo_estados : List (String × Nat)
  conteo_ciudades : List (String × Nat)
  envios_entregados : Nat
  tiempo_promedio_entrega_horas : Rat
deriving DecidableEq

/-- `envios_periodo` (lines 303-307): inclusive date-range filter on the
date component of `fecha_envio`, over the dict's values in order. -/
def envios_periodo (s : Sistema) (fecha_inicio fecha_fin : Nat) :
    List Envio :=
  (s.envios.map Prod.snd).filter
    (fun envio =>
      decide (fecha_inicio ≤ dateOf envio.fecha_envio) &&
      decide (dateOf envio.fecha_envio ≤ fecha_fin))

/-- The per-status counting loop (lines 310-312): `conteo_estados[estado] += 1`
raises `KeyError` when the status is not already a key of the dict. -/
def contarEstados : List Envio → List (String × Nat) →
    Except PyErr (List (String × Nat))
  | [], conteo => .ok conteo
  | envio :: rest, conteo =>
      match alookup conteo envio.estado with
      | none => .error .keyError
      | some n => contarEstados rest (dinsert conteo envio.estado (n + 1))

/-- One step of the per-city counting loop (lines 316-320): initialize the
key to 0 when absent, then increment. -/
def incrCiudad (conteo : List (String × Nat)) (ciudad : String) :
    List (String × Nat) :=
  match alookup conteo ciudad with
  | none => dinsert conteo ciudad 1
  | some n => dinsert conteo ciudad (n + 1)

/-- One iteration of the delivery-time loop (lines 329-339):
`historial_estados[0]` raises `IndexError` on an empty history; the first
entry with status "Entregado" (if any) yields the duration in hours. -/
def tiempoEntrega (envio : Envio) : Except PyErr (Option Rat) :=
  match envio.historial_estados with
  | [] => .error .indexError
  | recibido :: _ =>
      match envio.historial_estados.find?
          (fun h => h.estado == "Entregado") with
      | some entregado =>
          .ok (some (((entregado.fecha : Rat) - (recibido.fecha : Rat)) / 3600))
      | none => .ok none

/-- The delivery-time loop over the delivered shipments (lines 328-339),
collecting `tiempos_entrega` in iteration order. -/
def tiemposEntrega : List Envio → Except PyErr (List Rat)
  | [] => .ok []
  | envio :: rest =>
      match tiempoEntrega envio with
      | .error err => .error err
      | .ok t =>
          match tiemposEntrega rest with
          | .error err => .error err
          | .ok ts =>
              .ok (match t with
                   | some x => x :: ts
                   | none => ts)

/-- `SistemaGestionEnvios.generar_informe_envios` (lines 301-349). -/
def generar_informe_envios (s : Sistema) (fecha_inicio fecha_fin : Nat) :
    Except PyErr Informe :=
  let periodo := envios_periodo s fecha_inicio fecha_fin
  match contarEstados periodo ( ESTADOS_ENVIO.map (fun estado => (estado, 0))) with
  | .error err => .error err
  | .ok conteo_estados =>
      let conteo_ciudades :=
        periodo.foldl
          (fun conteo envio => incrCiudad conteo envio.destinatario.ciudad) []
      let entregados := periodo.filter (fun envio => envio.estado == "Entregado")
      match tiemposEntrega entregados with
      | .error err => .error err
      | .ok tiempos =>
          .ok { total_envios := periodo.length
                conteo_estados := conteo_estados
                conteo_ciudades := conteo_ciudades
                envios_entregados := entregados.length
                tiempo_promedio_entrega_horas :=
                  if tiempos.isEmpty then 0
                  else tiempos.foldl (fun a x => a + x) 0 / (tiempos.length : Rat) }

/-- The spec's per-shipment delivery duration: timestamp of the first
history entry whose status is "Entregado", minus the timestamp of the
first (creation) history entry, in hours; `none` when the history has no
"Entregado" entry or is empty. -/
def entregaHoras (envio : Envio) : Option Rat :=
  match envio.historial_estados with
  | [] => none
  | recibido :: _ =>
      (envio.historial_estados.find? (fun h => h.estado == "Entregado")).map
        (fun entregado =>
          ((entregado.fecha : Rat) - (recibido.fecha : Rat)) / 3600)

/-- A sample registered customer. -/
def clienteEj : Cliente :=
  ⟨"Ana", "Gomez", "123", "CC", "Calle 1", "5551234", "3001234", "Centro"⟩

/-- A sample recipient. -/
def destinatarioEj : Destinatario :=
  ⟨"Luis Diaz", "Calle 2", "3015678", "Bogota", "Norte"⟩

/-- A sample shipment as created by `registrar_envio` at datetime 1000 with
guia "A" and creation wall clock 1000. -/
def envioEj : Envio := Envio.init 1000 destinatarioEj "123" "A" 1000

/-- A sample system state: customer "123" and shipment "A". -/
def sistemaEj : Sistema := ⟨[("123", clienteEj)], [("A", envioEj)]⟩

/-- `envioEj` after `actualizar_estado "Entregado"` at wall clock 8200. -/
def envioEjEntregado : Envio :=
  { envioEj with
    estado := "Entregado"
    historial_estados :=
      envioEj.historial_estados ++ [⟨"Entregado", 8200, "ok"⟩] }

/-- A shipment with status "Entregado" but an empty history, producible
only from externally crafted persisted data (`from_dict` copies
`historial_estados` unchecked). -/
def envioMal : Envio :=
  { fecha_envio := 0
    hora_envio := 0
    destinatario := destinatarioEj
    id_remitente := "123"
    numero_guia := "M"
    estado := "Entregado"
    historial_estados := [] }

/-- A crafted state holding `envioMal`. -/
def sistemaMal : Sistema := ⟨[("123", clienteEj)], [("M", envioMal)]⟩

/-- A shipment whose status lies outside `ESTADOS_ENVIO`, producible only
from externally crafted persisted data. -/
def envioPerdido : Envio :=
  { fecha_envio := 0
    hora_envio := 0
    destinatario := destinatarioEj
    id_remitente := "123"
    numero_guia := "P"
    estado := "Perdido"
    historial_estados := [⟨"Recibido", 0, "Paquete recibido en la oficina"⟩] }

/-- A crafted state holding `envioPerdido`. -/
def sistemaPerdido : Sistema := ⟨[("123", clienteEj)], [("P", envioPerdido)]⟩

/-- One session step of the service: any call to one of the four mutating
operations, with arbitrary operator-chosen arguments.  For `registrar_envio`
the generated `str(uuid.uuid4())` is modelled as an oracle supplying a guia
not already present (the spec's collision-free identifier assumption). -/
inductive Step : Sistema → Sistema → Prop where
  | reg_cliente (s : Sistema) (n a id t d tf c b : String) :
      Step s (registrar_cliente s n a id t d tf c b).1
  | act_cliente (s : Sistema) (id : String) (d tf c b : Option String) :
      Step s (actualizar_cliente s id d tf c b).1
  | reg_envio (s : Sistema) (fecha : Nat) (dn dd dt dc db id guia : String)
      (now : Nat) (hfresh : alookup s.envios guia = none) :
      Step s (registrar_envio s fecha dn dd dt dc db id guia now).1
  | act_estado (s : Sistema) (guia est : String) (now : Nat) (desc : String) :
      Step s (actualizar_estado_envio s guia est now desc).1

/-- States reachable by a session starting with no persisted data. -/
def Reachable (s : Sistema) : Prop :=
  Relation.ReflTransGen Step Sistema.empty s

/-- The repository state after registering the sample customer in a fresh
session. -/
def sistemaPaso1 : Sistema :=
  (registrar_cliente Sistema.empty "Ana" "Gomez" "123" "CC" "Calle 1"
    "5551234" "3001234" "Centro").1

/-- The repository state after additionally registering the sample
shipment. -/
def sistemaPaso2 : Sistema :=
  (registrar_envio sistemaPaso1 1000 "Luis Diaz" "Calle 2" "3015678"
    "Bogota" "Norte" "123" "A" 1000).1

/-- A state holding the sample shipment after it was delivered. -/
def sistemaEntrega : Sistema := ⟨[("123", clienteEj)], [("A", envioEjEntregado)]⟩

/-- The report the program produces for `sistemaEntrega` over day 0: one
delivered shipment, delivered (8200 - 1000) seconds = 2 hours after
creation. -/
def informeEntrega : Informe :=
  { total_envios := 1
    conteo_estados :=
      [("Recibido", 0), ("En Tránsito", 0), ("En Ciudad Destino", 0),
       ("En Bodega De La Transportadora", 0), ("En Reparto", 0),
       ("Entregado", 1)]
    conteo_ciudades := [("Bogota", 1)]
    envios_entregados := 1
    tiempo_promedio_entrega_horas := 2 }

/-! ### Helper lemmas about the association-list dict model -/

theorem alookup_dinsert {α : Type} (l : List (String × α)) (k : String)
    (v : α) (k' : String) :
    alookup (dinsert l k v) k' = if k = k' then some v else alookup l k' := by
  induction l with
  | nil => simp [dinsert, alookup]
  | cons p rest ih =>
      obtain ⟨k0, v0⟩ := p
      by_cases h0 : k0 = k
      · subst h0
        by_cases h1 : k0 = k'
        · subst h1; simp [dinsert, alookup]
        · simp [dinsert, alookup, h1]
      · by_cases h1 : k0 = k'
        · subst h1
          simp [dinsert, alookup, h0]
          rw [if_neg (fun h => h0 h.symm)]
        · simp [dinsert, alookup, h0, h1, ih]

theorem mem_dinsert {α : Type} (l : List (String × α)) (k : String) (v : α)
    (p : String × α) (hp : p ∈ dinsert l k v) : p = (k, v) ∨ p ∈ l := by
  induction l with
  | nil => simp [dinsert] at hp; simp [hp]
  | cons q rest ih =>
      obtain ⟨k0, v0⟩ := q
      by_cases h0 : k0 = k
      · simp [dinsert, h0] at hp
        rcases hp with hp | hp
        · subst h0; simp [hp]
        · simp [hp]
      · simp [dinsert, h0] at hp
        rcases hp with hp | hp
        · simp [hp]
        · rcases ih hp with hih | hih
          · simp [hih]
          · simp [hih]

theorem alookup_none_iff {α : Type} (l : List (String × α)) (k : String) :
    alookup l k = none ↔ k ∉ l.map Prod.fst := by
  induction l with
  | nil => simp [alookup]
  | cons p rest ih =>
      obtain ⟨k0, v0⟩ := p
      by_cases h0 : k0 = k
      · subst h0; simp [alookup]
      · simp [alookup, h0, ih]
        intro h; exact fun he => h0 he.symm

theorem alookup_mem {α : Type} (l : List (String × α)) (k : String) (v : α)
    (h : alookup l k = some v) : (k, v) ∈ l := by
  induction l with
  | nil => simp [alookup] at h
  | cons p rest ih =>
      obtain ⟨k0, v0⟩ := p
      by_cases h0 : k0 = k
      · subst h0
        simp [alookup] at h
        simp [h]
      · simp [alookup, h0] at h
        simp [ih h]

theorem dinsert_absent {α : Type} (l : List (String × α)) (k : String)
    (v : α) (h : alookup l k = none) : dinsert l k v = l ++ [(k, v)] := by
  induction l with
  | nil => simp [dinsert]
  | cons p rest ih =>
      obtain ⟨k0, v0⟩ := p
      by_cases h0 : k0 = k
      · subst h0; simp [alookup] at h
      · simp [alookup, h0] at h
        simp [dinsert, h0, ih h]

theorem map_fst_dinsert_present {α : Type} (l : List (String × α))
    (k : String) (v : α) (h : (alookup l k).isSome) :
    (dinsert l k v).map Prod.fst = l.map Prod.fst := by
  induction l with
  | nil => simp [alookup] at h
  | cons p rest ih =>
      obtain ⟨k0, v0⟩ := p
      by_cases h0 : k0 = k
      · subst h0; simp [dinsert]
      · simp [alookup, h0] at h
        simp [dinsert, h0, ih h]

theorem dinsert_nodup {α : Type} (l : List (String × α)) (k : String)
    (v : α) (h : (l.map Prod.fst).Nodup) :
    ((dinsert l k v).map Prod.fst).Nodup := by
  by_cases hs : (alookup l k).isSome
  · rw [map_fst_dinsert_present _ _ _ hs]
    exact h
  · have hnone : alookup l k = none := by
      cases hq : alookup l k
      · rfl
      · rw [hq] at hs; simp at hs
    rw [dinsert_absent _ _ _ hnone, List.map_append]
    simp only [List.map_cons, List.map_nil]
    rw [List.nodup_append]
    refine ⟨h, List.nodup_singleton _, ?_⟩
    intro x hx hx1
    simp at hx1
    rw [hx1] at hx
    exact (alookup_none_iff l k).mp hnone hx

theorem foldl_dinsert_lookup (s : Sistema) (ngs : List String)
    (acc : List (String × Option Envio)) (k : String)
    (hacc : ∀ v, alookup acc k = some v → v = buscar_envio s k) :
    ∀ v, alookup
        (ngs.foldl (fun m ng => dinsert m ng (buscar_envio s ng)) acc) k =
          some v →
      v = buscar_envio s k := by
  induction ngs generalizing acc with
  | nil => exact hacc
  | cons ng rest ih =>
      intro v hv
      refine ih (dinsert acc ng (buscar_envio s ng)) ?_ v hv
      intro w hw
      rw [alookup_dinsert] at hw
      by_cases he : ng = k
      · rw [if_pos he] at hw
        subst he
        simp at hw
        exact hw.symm
      · rw [if_neg he] at hw
        exact hacc w hw

theorem foldl_dinsert_isSome (s : Sistema) (ngs : List String)
    (acc : List (String × Option Envio)) (k : String)
    (h : k ∈ ngs ∨ (alookup acc k).isSome) :
    (alookup
      (ngs.foldl (fun m ng => dinsert m ng (buscar_envio s ng)) acc)
      k).isSome := by
  induction ngs generalizing acc with
  | nil =>
      rcases h with h | h
      · simp at h
      · exact h
  | cons ng rest ih =>
      refine ih (dinsert acc ng (buscar_envio s ng)) ?_
      rcases h with h | h
      · rcases List.mem_cons.mp h with h | h
        · right
          rw [alookup_dinsert, if_pos h.symm]
          rfl
        · left; exact h
      · right
        rw [alookup_dinsert]
        by_cases he : ng = k
        · rw [if_pos he]; rfl
        · rw [if_neg he]; exact h

theorem foldl_dinsert_keys (s : Sistema) (ngs : List String)
    (acc : List (String × Option Envio)) (p : String × Option Envio)
    (hp : p ∈ ngs.foldl (fun m ng => dinsert m ng (buscar_envio s ng)) acc) :
    p.1 ∈ ngs ∨ p ∈ acc := by
  induction ngs generalizing acc with
  | nil => right; exact hp
  | cons ng rest ih =>
      rcases ih (dinsert acc ng (buscar_envio s ng)) hp with h | h
      · left; exact List.mem_cons_of_mem _ h
      · rcases mem_dinsert _ _ _ _ h with h | h
        · left
          rw [h]
          exact List.mem_cons_self _ _
        · right; exact h

theorem foldl_dinsert_nodup (s : Sistema) (ngs : List String)
    (acc : List (String × Option Envio))
    (hacc : (acc.map Prod.fst).Nodup) :
    (((ngs.foldl (fun m ng => dinsert m ng (buscar_envio s ng)) acc)).map
      Prod.fst).Nodup := by
  induction ngs generalizing acc with
  | nil => exact hacc
  | cons ng rest ih =>
      exact ih (dinsert acc ng (buscar_envio s ng)) (dinsert_nodup _ _ _ hacc)

theorem alookup_zero_isSome (l : List String) (k : String) :
    (alookup (l.map (fun estado => (estado, (0 : Nat)))) k).isSome ↔ k ∈ l := by
  induction l with
  | nil => simp [alookup]
  | cons e rest ih =>
      by_cases h0 : e = k
      · subst h0; simp [alookup]
      · simp [alookup, h0, ih]
        intro h; exact absurd h.symm h0

/-! ### Helper lemmas about the report loops -/

theorem contarEstados_error (es : List Envio) (m : List (String × Nat))
    (hdom : ∀ est, (alookup m est).isSome ↔ est ∈ ESTADOS_ENVIO)
    (hbad : ∃ e ∈ es, e.estado ∉ ESTADOS_ENVIO) :
    contarEstados es m = .error .keyError := by
  induction es generalizing m with
  | nil => simp at hbad
  | cons e rest ih =>
      by_cases hme : e.estado ∈ ESTADOS_ENVIO
      · have hsome : (alookup m e.estado).isSome := (hdom e.estado).mpr hme
        obtain ⟨n, hn⟩ := Option.isSome_iff_exists.mp hsome
        have hdom2 : ∀ est,
            (alookup (dinsert m e.estado (n + 1)) est).isSome ↔
              est ∈ ESTADOS_ENVIO := by
          intro est
          rw [alookup_dinsert]
          by_cases hq : e.estado = est
          · subst hq; simp [hme]
          · simp [hq, hdom est]
        have hbad2 : ∃ e2 ∈ rest, e2.estado ∉ ESTADOS_ENVIO := by
          rcases hbad with ⟨e2, he2, hbe2⟩
          rcases List.mem_cons.mp he2 with he2 | he2
          · subst he2; exact absurd hme hbe2
          · exact ⟨e2, he2, hbe2⟩
        simp [contarEstados, hn]
        exact ih _ hdom2 hbad2
      · have hnone : alookup m e.estado = none := by
          cases halo : alookup m e.estado with
          | none => rfl
          | some n =>
              exact absurd ((hdom e.estado).mp (by simp [halo])) hme
        simp [contarEstados, hnone]

theorem contarEstados_ok_mem (es : List Envio) (m : List (String × Nat))
    (m2 : List (String × Nat))
    (hdom : ∀ est, (alookup m est).isSome ↔ est ∈ ESTADOS_ENVIO)
    (h : contarEstados es m = .ok m2) :
    ∀ e ∈ es, e.estado ∈ ESTADOS_ENVIO := by
  by_contra hbad
  push_neg at hbad
  rw [contarEstados_error es m hdom hbad] at h
  simp at h

theorem tiempoEntrega_ok (envio : Envio) (t : Option Rat)
    (h : tiempoEntrega envio = .ok t) : t = entregaHoras envio := by
  unfold tiempoEntrega at h
  unfold entregaHoras
  cases hh : envio.historial_estados with
  | nil => rw [hh] at h; simp at h
  | cons recibido rest =>
      rw [hh] at h
      cases hf : List.find? (fun h => h.estado == "Entregado")
          (recibido :: rest) with
      | none => rw [hf] at h; simp at h; simp [hf, h]
      | some entregado => rw [hf] at h; simp at h; simp [hf, h]

/-! ### Helper lemmas for the reachable-state invariant -/

theorem registrar_cliente_envios (s : Sistema)
    (n a id t d tf c b : String) :
    (registrar_cliente s n a id t d tf c b).1.envios = s.envios := by
  unfold registrar_cliente
  by_cases h : (alookup s.clientes id).isSome
  · simp [h]
  · cases hm : mkCliente n a id t d tf c b <;> simp [h, hm]

theorem actualizar_cliente_envios (s : Sistema) (id : String)
    (d tf c b : Option String) :
    (actualizar_cliente s id d tf c b).1.envios = s.envios := by
  unfold actualizar_cliente
  cases h : alookup s.clientes id <;> simp [h]

theorem step_preserva_guias (s s' : Sistema) (h : Step s s')
    (hb : ∀ p ∈ s.envios, p.2.numero_guia = p.1)
    (hn : (s.envios.map Prod.fst).Nodup) :
    (∀ p ∈ s'.envios, p.2.numero_guia = p.1) ∧
      (s'.envios.map Prod.fst).Nodup := by
  cases h with
  | reg_cliente n a id t d tf c b =>
      rw [registrar_cliente_envios]
      exact ⟨hb, hn⟩
  | act_cliente id d tf c b =>
      rw [actualizar_cliente_envios]
      exact ⟨hb, hn⟩
  | reg_envio fecha dn dd dt dc db id guia now hfresh =>
      unfold registrar_envio
      by_cases hcl : (alookup s.clientes id).isNone = true
      · rw [if_pos hcl]
        exact ⟨hb, hn⟩
      · rw [if_neg hcl]
        have hgi : (Envio.init fecha ⟨dn, dd, dt, dc, db⟩ id guia now).numero_guia
            = guia := rfl
        simp only [hgi]
        rw [dinsert_absent s.envios guia _ hfresh]
        constructor
        · intro p hp
          rcases List.mem_append.mp hp with hp | hp
          · exact hb p hp
          · simp at hp
            simp [hp, hgi]
        · rw [List.map_append]
          simp only [List.map_cons, List.map_nil]
          rw [List.nodup_append]
          refine ⟨hn, List.nodup_singleton _, ?_⟩
          intro x hx hx1
          simp at hx1
          rw [hx1] at hx
          exact (alookup_none_iff s.envios guia).mp hfresh hx
  | act_estado guia est now desc =>
      unfold actualizar_estado_envio buscar_envio
      cases halo : alookup s.envios guia with
      | none => simp only [halo]; exact ⟨hb, hn⟩
      | some e =>
          simp only [halo]
          unfold Envio.actualizar_estado
          by_cases hm : est ∈ ESTADOS_ENVIO
          · rw [if_neg (not_not_intro hm)]
            have hg : e.numero_guia = guia := hb (guia, e) (alookup_mem _ _ _ halo)
            constructor
            · intro p hp
              rcases mem_dinsert _ _ _ _ hp with hp | hp
              · simp [hp, hg]
              · exact hb p hp
            · rw [map_fst_dinsert_present s.envios guia _ (by simp [halo])]
              exact hn
          · rw [if_pos hm]
            exact ⟨hb, hn⟩

theorem tiemposEntrega_ok (es : List Envio) (ts : List Rat)
    (h : tiemposEntrega es = .ok ts) : ts = es.filterMap entregaHoras := by
  induction es generalizing ts with
  | nil => simp [tiemposEntrega] at h; simp [h]
  | cons e rest ih =>
      unfold tiemposEntrega at h
      cases h1 : tiempoEntrega e with
      | error err => rw [h1] at h; simp at h
      | ok t =>
          rw [h1] at h
          cases h2 : tiemposEntrega rest with
          | error err => rw [h2] at h; simp at h
          | ok ts2 =>
              rw [h2] at h
              simp at h
              rw [List.filterMap_cons, ← tiempoEntrega_ok e t h1, ← ih ts2 h2]
              cases t with
              | none => simpa using h.symm
              | some x => simpa using h.symm

/-! ### The claims -/

/-- C1: every successful `actualizar_estado_envio` call appends exactly one
entry to the stored shipment's status history — the new history is the old
one plus a single final entry, so its length grows by exactly one and all
prior entries are preserved unchanged and in order — and afterwards the
shipment's `estado` field equals the status of the most recently appended
history entry. -/
theorem c1_historial_append (s : Sistema) (guia est : String) (now : Nat)
    (desc : String) (e2 : Envio)
    (h : (actualizar_estado_envio s guia est now desc).2 = .ok e2) :
    ∃ e, alookup s.envios guia = some e ∧
      e2.historial_estados = e.historial_estados ++ [⟨est, now, desc⟩] ∧
      e2.historial_estados.length = e.historial_estados.length + 1 ∧
      e2.historial_estados.take e.historial_estados.length =
        e.historial_estados ∧
      e2.historial_estados.getLast? = some ⟨est, now, desc⟩ ∧
      e2.estado = est ∧
      alookup (actualizar_estado_envio s guia est now desc).1.envios guia =
        some e2 := by
  unfold actualizar_estado_envio buscar_envio Envio.actualizar_estado at h ⊢
  cases halo : alookup s.envios guia with
  | none => rw [halo] at h; simp at h
  | some e =>
      rw [halo] at h
      by_cases hm : est ∈ ESTADOS_ENVIO
      · simp [hm] at h
        subst h
        refine ⟨e, rfl, rfl, by simp, ?_, ?_, rfl, ?_⟩
        · simp [List.take_left]
        · simp
        · simp [hm, alookup_dinsert]
      · simp [hm] at h

/-- C1 witness: a concrete successful status update on the sample state. -/
theorem c1_witness :
    ∃ e, alookup sistemaEj.envios "A" = some e ∧
      envioEjEntregado.historial_estados =
        e.historial_estados ++ [⟨"Entregado", 8200, "ok"⟩] ∧
      envioEjEntregado.historial_estados.length =
        e.historial_estados.length + 1 ∧
      envioEjEntregado.historial_estados.take e.historial_estados.length =
        e.historial_estados ∧
      envioEjEntregado.historial_estados.getLast? =
        some ⟨"Entregado", 8200, "ok"⟩ ∧
      envioEjEntregado.estado = "Entregado" ∧
      alookup (actualizar_estado_envio sistemaEj "A" "Entregado" 8200
        "ok").1.envios "A" = some envioEjEntregado :=
  c1_historial_append sistemaEj "A" "Entregado" 8200 "ok" envioEjEntregado rfl

/-- C2: `actualizar_estado_envio` fails with `notFound` exactly when the
tracking number is absent, fails with `invalidStatus` exactly when the
tracking number is present but the new status is outside the six fixed
statuses, and succeeds in every remaining case — independently of the
current status, so no transition is rejected for ordering. -/
theorem c2_estado_errores (s : Sistema) (guia est : String) (now : Nat)
    (desc : String) :
    ((actualizar_estado_envio s guia est now desc).2 =
        .error .notFound ↔ alookup s.envios guia = none)
  ∧ ((actualizar_estado_envio s guia est now desc).2 =
        .error .invalidStatus ↔
      ((alookup s.envios guia).isSome ∧ est ∉ ESTADOS_ENVIO))
  ∧ ((∃ e2, (actualizar_estado_envio s guia est now desc).2 = .ok e2) ↔
      ((alookup s.envios guia).isSome ∧ est ∈ ESTADOS_ENVIO)) := by
  unfold actualizar_estado_envio buscar_envio Envio.actualizar_estado
  cases halo : alookup s.envios guia with
  | none => simp
  | some e =>
      by_cases hm : est ∈ ESTADOS_ENVIO
      · simp [hm]
      · simp [hm]

/-- C3: registering a customer whose `id_numero` is already present fails
with `duplicateIdentifier` and leaves the whole repository state — in
particular the previously stored record — unmodified. -/
theorem c3_duplicado_sin_mutacion (s : Sistema) (c0 : Cliente)
    (nombres apellidos id_numero tipo_id direccion telefono_fijo
     celular barrio : String)
    (h : alookup s.clientes id_numero = some c0) :
    registrar_cliente s nombres apellidos id_numero tipo_id direccion
        telefono_fijo celular barrio = (s, .error .duplicateIdentifier)
  ∧ alookup (registrar_cliente s nombres apellidos id_numero tipo_id
      direccion telefono_fijo celular barrio).1.clientes id_numero =
      some c0 := by
  have hdup : (alookup s.clientes id_numero).isSome = true := by simp [h]
  unfold registrar_cliente
  rw [if_pos hdup]
  exact ⟨rfl, h⟩

/-- C3 witness: re-registering the sample customer's identifier fails and
leaves the stored record in place. -/
theorem c3_witness :
    registrar_cliente sistemaEj "Otro" "Nombre" "123" "TI" "Calle 9" "1"
        "2" "Sur" = (sistemaEj, .error .duplicateIdentifier)
  ∧ alookup (registrar_cliente sistemaEj "Otro" "Nombre" "123" "TI"
      "Calle 9" "1" "2" "Sur").1.clientes "123" = some clienteEj :=
  c3_duplicado_sin_mutacion sistemaEj clienteEj "Otro" "Nombre" "123" "TI"
    "Calle 9" "1" "2" "Sur" rfl

/-- C4: `registrar_envio` fails with `notFound` exactly when the sender id
is not a registered customer; on success the created, stored shipment has
status "Recibido" — the head of the fixed status list — and a one-entry
history whose status is "Recibido", whose description is the fixed creation
text, and whose timestamp is the wall-clock `now` argument rather than the
caller-supplied send datetime. -/
theorem c4_registrar_envio (s : Sistema) (fecha : Nat)
    (dn dd dt dc db id guia : String) (now : Nat) :
    ((registrar_envio s fecha dn dd dt dc db id guia now).2 =
        .error .notFound ↔ alookup s.clientes id = none)
  ∧ ESTADOS_ENVIO[0]! = "Recibido"
  ∧ (∀ e2, (registrar_envio s fecha dn dd dt dc db id guia now).2 = .ok e2 →
      e2.estado = "Recibido" ∧
      e2.historial_estados =
        [⟨"Recibido", now, "Paquete recibido en la oficina"⟩] ∧
      e2.fecha_envio = fecha ∧
      (now ≠ fecha →
        e2.historial_estados.map HistEntry.fecha ≠ [fecha]) ∧
      alookup (registrar_envio s fecha dn dd dt dc db id guia now).1.envios
        guia = some e2) := by
  unfold registrar_envio
  refine ⟨?_, rfl, ?_⟩
  · by_cases hcl : (alookup s.clientes id).isNone = true
    · rw [if_pos hcl]
      simp only [Option.isNone_iff_eq_none] at hcl
      simp [hcl]
    · rw [if_neg hcl]
      simp only [Option.isNone_iff_eq_none] at hcl
      simp [hcl]
  · intro e2 h2
    by_cases hcl : (alookup s.clientes id).isNone = true
    · rw [if_pos hcl] at h2
      simp at h2
    · rw [if_neg hcl] at h2
      simp only [Except.ok.injEq] at h2
      subst h2
      refine ⟨rfl, rfl, rfl, ?_, ?_⟩
      · intro hne
        simp [Envio.init]
        exact fun hf => hne hf
      · rw [if_neg hcl]
        simp [alookup_dinsert, Envio.init]

/-- C5 counterexample: the claim quantifies over every report call, but a
call over a range containing a shipment whose status is "Entregado" while
its history is empty (craftable persisted data, which the claim itself
contemplates) raises `IndexError` at `historial_estados[0]` instead of
producing a report that counts the shipment — so no `envios_entregados`
count or average is produced at all. -/
theorem c5_contraejemplo :
    generar_informe_envios sistemaMal 0 0 = .error .indexError ∧
    sistemaMal.envios.map Prod.snd = [envioMal] ∧
    envioMal.estado = "Entregado" ∧
    dateOf envioMal.fecha_envio = 0 :=
  ⟨rfl, rfl, rfl, rfl⟩

/-- C5 (amended): for every report call that completes with a report,
`envios_entregados` counts exactly the in-range shipments whose status is
"Entregado", and the average delivery duration in hours is taken over the
per-shipment durations (first "Entregado" history entry minus the creation
entry, in hours) of those delivered shipments whose history contains an
"Entregado" entry — a delivered shipment without one is still counted in
`envios_entregados` but contributes nothing — and the average is 0 when no
shipment contributes. -/
theorem c5_informe_entregados (s : Sistema) (fecha_inicio fecha_fin : Nat)
    (r : Informe)
    (h : generar_informe_envios s fecha_inicio fecha_fin = .ok r) :
    r.envios_entregados =
      ((envios_periodo s fecha_inicio fecha_fin).filter
        (fun envio => envio.estado == "Entregado")).length
  ∧ r.tiempo_promedio_entrega_horas =
      (if ((envios_periodo s fecha_inicio fecha_fin).filter
            (fun envio => envio.estado == "Entregado")).filterMap
            entregaHoras = [] then 0
       else (((envios_periodo s fecha_inicio fecha_fin).filter
              (fun envio => envio.estado == "Entregado")).filterMap
              entregaHoras).foldl (fun a x => a + x) 0 /
            (((((envios_periodo s fecha_inicio fecha_fin).filter
              (fun envio => envio.estado == "Entregado")).filterMap
              entregaHoras).length : Nat) : Rat)) := by
  simp only [generar_informe_envios] at h
  cases hc : contarEstados (envios_periodo s fecha_inicio fecha_fin)
      ( ESTADOS_ENVIO.map (fun estado => (estado, 0))) with
  | error err => rw [hc] at h; simp at h
  | ok m2 =>
      rw [hc] at h
      cases ht : tiemposEntrega
          ((envios_periodo s fecha_inicio fecha_fin).filter
            (fun envio => envio.estado == "Entregado")) with
      | error err => rw [ht] at h; simp at h
      | ok ts =>
          rw [ht] at h
          simp only [Except.ok.injEq] at h
          subst h
          have hts := tiemposEntrega_ok _ _ ht
          subst hts
          refine ⟨rfl, ?_⟩
          simp [List.isEmpty_iff]

/-- C5 witness: the concrete delivered sample produces a completed report
with one delivered shipment and a two-hour average. -/
theorem c5_witness :
    informeEntrega.envios_entregados =
      ((envios_periodo sistemaEntrega 0 0).filter
        (fun envio => envio.estado == "Entregado")).length
  ∧ informeEntrega.tiempo_promedio_entrega_horas =
      (if ((envios_periodo sistemaEntrega 0 0).filter
            (fun envio => envio.estado == "Entregado")).filterMap
            entregaHoras = [] then 0
       else (((envios_periodo sistemaEntrega 0 0).filter
              (fun envio => envio.estado == "Entregado")).filterMap
              entregaHoras).foldl (fun a x => a + x) 0 /
            (((((envios_periodo sistemaEntrega 0 0).filter
              (fun envio => envio.estado == "Entregado")).filterMap
              entregaHoras).length : Nat) : Rat)) :=
  c5_informe_entregados sistemaEntrega 0 0 informeEntrega (by
    simp +decide [generar_informe_envios, envios_periodo, contarEstados,
      tiemposEntrega, tiempoEntrega, incrCiudad, alookup, dinsert,
      ESTADOS_ENVIO, dateOf, segPorDia, envioEjEntregado, envioEj,
      Envio.init, sistemaEntrega, destinatarioEj, clienteEj, List.find?,
      informeEntrega]
    norm_num)

/-- C6: the tracking number is assigned once at creation and never changed
afterwards — `actualizar_estado` preserves it, and in every state reachable
by a session from the empty repository each stored shipment's
`numero_guia` equals its key in the `envios` dict, whose keys are
pairwise distinct; the listed concrete two-step session shows the
reachable set is non-trivial. -/
theorem c6_numero_guia_unico :
    (∀ s : Sistema, Reachable s →
      (∀ p ∈ s.envios, p.2.numero_guia = p.1) ∧
        (s.envios.map Prod.fst).Nodup)
  ∧ (∀ (e : Envio) (est : String) (now : Nat) (desc : String) (e2 : Envio),
      Envio.actualizar_estado e est now desc = .ok e2 →
      e2.numero_guia = e.numero_guia)
  ∧ Reachable sistemaPaso2 := by
  refine ⟨?_, ?_, ?_⟩
  · intro s h
    induction h with
    | refl => simp [Sistema.empty]
    | tail hab hbc ih => exact step_preserva_guias _ _ hbc ih.1 ih.2
  · intro e est now desc e2 h
    unfold Envio.actualizar_estado at h
    by_cases hm : est ∈ ESTADOS_ENVIO
    · simp [hm] at h
      rw [← h]
    · simp [hm] at h
  · exact Relation.ReflTransGen.tail
      (Relation.ReflTransGen.tail Relation.ReflTransGen.refl
        (Step.reg_cliente Sistema.empty "Ana" "Gomez" "123" "CC" "Calle 1"
          "5551234" "3001234" "Centro"))
      (Step.reg_envio sistemaPaso1 1000 "Luis Diaz" "Calle 2" "3015678"
        "Bogota" "Norte" "123" "A" 1000 rfl)

/-- C7: `actualizar_cliente` fails with `notFound` exactly when the id is
absent; otherwise the stored record is overwritten on exactly those of the
four mutable fields that were supplied with a non-empty value, every other
field — mutable fields supplied empty or omitted, and all immutable
fields — being left unchanged. -/
theorem c7_actualizar_parcial (s : Sistema) (id : String)
    (direccion telefono_fijo celular barrio : Option String) :
    (alookup s.clientes id = none →
      actualizar_cliente s id direccion telefono_fijo celular barrio =
        (s, .error .notFound))
  ∧ (∀ c, alookup s.clientes id = some c →
      ∃ c2,
        actualizar_cliente s id direccion telefono_fijo celular barrio =
          ({ s with clientes := dinsert s.clientes id c2 }, .ok c2) ∧
        c2.direccion = (match direccion with
          | none => c.direccion
          | some v => if v = "" then c.direccion else v) ∧
        c2.telefono_fijo = (match telefono_fijo with
          | none => c.telefono_fijo
          | some v => if v = "" then c.telefono_fijo else v) ∧
        c2.celular = (match celular with
          | none => c.celular
          | some v => if v = "" then c.celular else v) ∧
        c2.barrio = (match barrio with
          | none => c.barrio
          | some v => if v = "" then c.barrio else v) ∧
        c2.nombres = c.nombres ∧ c2.apellidos = c.apellidos ∧
        c2.id_numero = c.id_numero ∧ c2.tipo_id = c.tipo_id ∧
        alookup (actualizar_cliente s id direccion telefono_fijo celular
          barrio).1.clientes id = some c2) := by
  constructor
  · intro h
    unfold actualizar_cliente
    rw [h]
  · intro c h
    unfold actualizar_cliente
    rw [h]
    refine ⟨c.actualizar_informacion direccion telefono_fijo celular barrio,
      rfl, rfl, rfl, rfl, rfl, rfl, rfl, rfl, rfl, ?_⟩
    simp [alookup_dinsert]

/-- C8: `buscar_multiple_envios` returns a mapping whose keys are exactly
the input tracking numbers with duplicates collapsed (keys are pairwise
distinct), where every input tracking number is mapped to the result of
looking it up — its shipment when registered, absent otherwise; on the
spec's concrete example it yields exactly the two-entry mapping. -/
theorem c8_buscar_multiple (s : Sistema) (ngs : List String) :
    (∀ ng ∈ ngs, alookup (buscar_multiple_envios s ngs) ng =
      some (buscar_envio s ng))
  ∧ (∀ p ∈ buscar_multiple_envios s ngs, p.1 ∈ ngs)
  ∧ ((buscar_multiple_envios s ngs).map Prod.fst).Nodup
  ∧ buscar_multiple_envios sistemaEj ["A", "B", "A"] =
      [("A", some envioEj), ("B", none)] := by
  refine ⟨?_, ?_, ?_, rfl⟩
  · intro ng hng
    unfold buscar_multiple_envios
    have h1 := foldl_dinsert_isSome s ngs [] ng (Or.inl hng)
    obtain ⟨v, hv⟩ := Option.isSome_iff_exists.mp h1
    rw [hv,
      foldl_dinsert_lookup s ngs [] ng (by intro v hv2; simp [alookup] at hv2)
        v hv]
  · intro p hp
    unfold buscar_multiple_envios at hp
    rcases foldl_dinsert_keys s ngs [] p hp with h | h
    · exact h
    · simp at h
  · unfold buscar_multiple_envios
    exact foldl_dinsert_nodup s ngs [] (by simp)

/-- C9: serializing a customer, a recipient or a shipment with `to_dict`
and deserializing with `from_dict` restores every declared field exactly —
including the nested recipient and the whole status history — so the
persistence round trip is lossless (a customer always has a valid
`tipo_id`, and a shipment's `hora_envio` is always the time-of-day of its
`fecha_envio`, both enforced at construction). -/
theorem c9_roundtrip :
    (∀ c : Cliente, c.tipo_id ∈ TIPOS_ID →
      Cliente.from_dict c.to_dict = .ok c)
  ∧ (∀ d : Destinatario, Destinatario.from_dict d.to_dict = d)
  ∧ (∀ (e : Envio) (guia : String) (now : Nat),
      e.hora_envio = e.fecha_envio % segPorDia →
      Envio.from_dict e.to_dict guia now = e) := by
  refine ⟨?_, ?_, ?_⟩
  · intro c hc
    unfold Cliente.from_dict Cliente.to_dict mkCliente
    rw [if_neg (not_not_intro hc)]
  · intro d
    rfl
  · intro e guia now h
    obtain ⟨fe, he, dst, rem, g, est, hist⟩ := e
    obtain ⟨n1, d1, t1, c1, b1⟩ := dst
    simp only at h
    subst h
    unfold Envio.from_dict Envio.to_dict Envio.init Destinatario.from_dict
      Destinatario.to_dict
    simp [Nat.div_add_mod']

/-- C10: whenever the date range contains a shipment whose status lies
outside the six fixed statuses (craftable persisted data — `from_dict`
copies `estado` unchecked), the report raises `KeyError` at the per-status
counter increment; conversely every completed report call had only fixed
statuses in range, i.e. the report is total only under that precondition.
The concrete crafted state shows the failure. -/
theorem c10_informe_keyerror (s : Sistema) (fecha_inicio fecha_fin : Nat) :
    ((∃ e ∈ envios_periodo s fecha_inicio fecha_fin,
        e.estado ∉ ESTADOS_ENVIO) →
      generar_informe_envios s fecha_inicio fecha_fin = .error .keyError)
  ∧ (∀ r, generar_informe_envios s fecha_inicio fecha_fin = .ok r →
      ∀ e ∈ envios_periodo s fecha_inicio fecha_fin,
        e.estado ∈ ESTADOS_ENVIO)
  ∧ generar_informe_envios sistemaPerdido 0 0 = .error .keyError := by
  have hdom : ∀ est,
      (alookup ( ESTADOS_ENVIO.map (fun estado => (estado, (0 : Nat))))
        est).isSome ↔ est ∈ ESTADOS_ENVIO :=
    fun est => alookup_zero_isSome ESTADOS_ENVIO est
  refine ⟨?_, ?_, rfl⟩
  · intro hbad
    simp only [generar_informe_envios]
    rw [contarEstados_error _ _ hdom hbad]
  · intro r hr
    simp only [generar_informe_envios] at hr
    cases hc : contarEstados (envios_periodo s fecha_inicio fecha_fin)
        ( ESTADOS_ENVIO.map (fun estado => (estado, 0))) with
    | error err => rw [hc] at hr; simp at hr
    | ok m2 => exact contarEstados_ok_mem _ _ m2 hdom hc
